import Mathlib

/-!
Verification of the JAWS / Case-Manager reconciliation pipeline, the class
JAWSCasemgrRecon of done.py, shallowly embedded in Lean.

Tables are lists of records, missing cells (pandas NaN) are Option.none,
and the exceptions that abort a Python run are an Except error value.
The pipeline's external collaborators (the json module, the Mapping rule
table, AppGlobal.Config, Query, SqlClient) are passed in as an explicit
environment, modelled by their usage contracts.
-/

namespace JAWSRecon

/-- Minimal model of a JSON value, the output of json.loads on one
CASE_DATA cell. -/
inductive Json where
  | null : Json
  | bool (b : Bool) : Json
  | num (n : Int) : Json
  | str (s : String) : Json
  | arr (elems : List Json) : Json
  | obj (fields : List (String × Json)) : Json
deriving Repr

/-- One raw row of the Casemgr sheet, restricted to the columns the
pipeline reads (CASE_DATA, key, value); passthrough columns such as
JOURNAL_ID do not influence any step and are not modelled. -/
structure CasemgrRow where
  case_data : String
  key : String
  value : Option String
deriving Repr, DecidableEq

/-- One row of the JAWS DB sheet (or of the JAWS query result):
IDN_REQUEST and CDE_JNL_STA. -/
structure JawsRow where
  idn_request : String
  cde_jnl_sta : Option String
deriving Repr, DecidableEq

/-- A processed Case record, one row of the case side after process_data:
the exploded CASE_DATA entry, Status (renamed from value), Symbol (second
split segment) and Security ID (fourth split segment, normalized).  The
dropped columns key, colNull and nullcol do not appear. -/
structure CaseRec where
  caseData : Option Json
  status : Option String
  symbol : Option String
  securityId : Option String
deriving Repr

/-- One row of the merged table: all case-side and JAWS-side columns
(either side may be wholly absent after the outer join) plus the derived
Recon Status column. -/
structure MergedRec where
  caseData : Option Json
  status : Option String
  symbol : Option String
  securityId : Option String
  idn_request : Option String
  cde_jnl_sta : Option String
  reconStatus : String
deriving Repr

/-- The exceptions that abort a run: json.JSONDecodeError from json.loads,
the pandas ValueError for a column-count mismatch in a split assignment,
a missing file / sheet / configuration key / named query, and a database
connection or query failure. -/
inductive RunError where
  | parseFailure : RunError
  | columnsMismatch : RunError
  | missingData : RunError
  | dbError : RunError
deriving Repr, DecidableEq

/-- Python str whitespace, by codepoint: the six ASCII characters that
str.strip removes (space, tab, newline, carriage return, vertical tab,
form feed). -/
def pyIsSpace (c : Char) : Bool :=
  decide (c.toNat = 32 ∨ c.toNat = 9 ∨ c.toNat = 10 ∨ c.toNat = 13 ∨
    c.toNat = 11 ∨ c.toNat = 12)

/-- Python str.upper on one character (basic latin letters a-z map to
A-Z, everything else is unchanged). -/
def pyUpperChar (c : Char) : Char :=
  if 97 ≤ c.toNat ∧ c.toNat ≤ 122 then Char.ofNat (c.toNat - 32) else c

/-- pandas Series.str.strip on one cell: Python str.strip, removing
leading and trailing whitespace. -/
def pyStrip (s : String) : String :=
  String.mk (List.rdropWhile pyIsSpace (List.dropWhile pyIsSpace s.data))

/-- pandas Series.str.upper on one cell: Python str.upper. -/
def pyUpper (s : String) : String :=
  String.mk (s.data.map pyUpperChar)

/-- The join-key normalization of process_data (done.py lines 92-94):
.str.strip().str.upper(). -/
def normalizeId (s : String) : String :=
  pyUpper (pyStrip s)

/-- Helper for pySplit: split a character list at every occurrence of
the separator character. -/
def pySplitAux (sep : Char) : List Char → List (List Char)
  | [] => [[]]
  | c :: cs =>
    let r := pySplitAux sep cs
    if c == sep then [] :: r
    else
      match r with
      | [] => [[c]]
      | h :: t => (c :: h) :: t

/-- Python str.split with a one-character separator, the semantics of
.str.split("3") and of os-path segmentation on "/": the string is cut at
every occurrence of the separator, keeping empty segments. -/
def pySplit (sep : Char) (s : String) : List String :=
  (pySplitAux sep s.data).map String.mk

/-- pandas explode on one CASE_DATA cell: a JSON array becomes one row
per element (an empty array becomes a single missing entry); any
non-array value is a scalar and stays as one row. -/
def explodeCell (j : Json) : List (Option Json) :=
  match j with
  | Json.arr [] => [none]
  | Json.arr xs => xs.map some
  | v => [some v]

/-- case_df["CASE_DATA"].apply(json.loads) (done.py line 82): parse every
CASE_DATA cell; the first malformed cell raises json.JSONDecodeError,
aborting the run. -/
def parseCaseData (loads : String → Option Json) :
    List CasemgrRow → Except RunError (List (Json × String × Option String))
  | [] => Except.ok []
  | r :: rs =>
    match loads r.case_data with
    | none => Except.error RunError.parseFailure
    | some j =>
      match parseCaseData loads rs with
      | Except.error e => Except.error e
      | Except.ok ts => Except.ok ((j, r.key, r.value) :: ts)

/-- case_df.explode("CASE_DATA") (done.py line 83): fan the parsed JSON
out into one row per entry; key and value are duplicated onto every
exploded row. -/
def explodeRows (parsed : List (Json × String × Option String)) :
    List (Option Json × String × Option String) :=
  parsed.flatMap (fun t => (explodeCell t.1).map (fun e => (e, t.2.1, t.2.2)))

/-- Number of columns of the expanded frame produced by
.str.split("3", expand=True) (done.py lines 86-88): the maximum segment
count over all rows; shorter rows are padded with missing values. -/
def splitWidth (keys : List String) : Nat :=
  (keys.map (fun k => (pySplit '3' k).length)).foldr max 0

/-- Build one processed case record from an exploded row (done.py lines
86-93): split the key on "3" into colNull / Symbol / nullcol / Security
ID (missing segments padded with NaN), rename value to Status, drop key,
colNull and nullcol, and normalize Security ID. -/
def mkCaseRec (t : Option Json × String × Option String) : CaseRec :=
  let parts := pySplit '3' t.2.1
  { caseData := t.1
    status := t.2.2
    symbol := parts[1]?
    securityId := (parts[3]?).map normalizeId }

/-- process_data (done.py lines 73-96).  The four-column split assignment
is the pandas statement case_df[[4 columns]] = key.str.split("3",
expand=True); it raises ValueError (Columns must be same length as key)
unless the expanded frame has exactly four columns, i.e. unless the
maximum segment count over the table is four. -/
def process_data (loads : String → Option Json) (jaws_data : List JawsRow)
    (casemgr_data : List CasemgrRow) :
    Except RunError (List CaseRec × List JawsRow) :=
  match parseCaseData loads casemgr_data with
  | Except.error e => Except.error e
  | Except.ok parsed =>
    let exploded := explodeRows parsed
    if splitWidth (exploded.map (fun t => t.2.1)) = 4 then
      Except.ok
        (exploded.map mkCaseRec,
         jaws_data.map (fun j => { j with idn_request := normalizeId j.idn_request }))
    else Except.error RunError.columnsMismatch

/-- Join-key equality of pd.merge: the case-side Security ID cell equals
the (always present) JAWS-side IDN_REQUEST; a missing case key matches
nothing. -/
def matchRow (c : CaseRec) (j : JawsRow) : Bool :=
  c.securityId == some j.idn_request

/-- The row set of pd.merge(how="outer") (done.py lines 102-108): every
(case, jaws) pair agreeing on the join key, plus every case row with no
counterpart (JAWS side absent), plus every JAWS row with no counterpart
(case side absent).  No row of either input is dropped. -/
def outerJoinRows (case_df : List CaseRec) (jaws_df : List JawsRow) :
    List (Option CaseRec × Option JawsRow) :=
  (case_df.flatMap (fun c =>
    match jaws_df.filter (matchRow c) with
    | [] => [(some c, none)]
    | ms => ms.map (fun j => (some c, some j)))) ++
  ((jaws_df.filter (fun j => case_df.all (fun c => !(matchRow c j)))).map
    (fun j => (none, some j)))

/-- calreconstatuscase (done.py lines 125-131): delegates to
Mapping.jaws_casestatus_map with the JAWS status as first argument.  The
Mapping class is an external collaborator not present in this repository,
so the pipeline is parametric in its jaws_casestatus_map method. -/
def calreconstatuscase (mapping : Option String → Option String → String)
    (case_status jaws_status : Option String) : String :=
  mapping jaws_status case_status

/-- Assemble one merged row from an outer-join pair and compute its Recon
Status (done.py lines 110-113): np.vectorize(calreconstatuscase) applied
element-wise to the Status and CDE_JNL_STA columns. -/
def mergeRec (mapping : Option String → Option String → String)
    (p : Option CaseRec × Option JawsRow) : MergedRec :=
  { caseData := p.1.bind CaseRec.caseData
    status := p.1.bind CaseRec.status
    symbol := p.1.bind CaseRec.symbol
    securityId := p.1.bind CaseRec.securityId
    idn_request := p.2.map JawsRow.idn_request
    cde_jnl_sta := p.2.bind JawsRow.cde_jnl_sta
    reconStatus := calreconstatuscase mapping (p.1.bind CaseRec.status)
      (p.2.bind JawsRow.cde_jnl_sta) }

/-- merge_data (done.py lines 98-115): full outer join of the case table
and the JAWS table on Security ID = IDN_REQUEST, then the Recon Status
column. -/
def merge_data (mapping : Option String → Option String → String)
    (case_df : List CaseRec) (jaws_df : List JawsRow) : List MergedRec :=
  (outerJoinRows case_df jaws_df).map (mergeRec mapping)

/-- pandas element-wise != on two object columns: present values compare
by string equality, and NaN is unequal to everything, including another
NaN. -/
def pdNe (a b : Option String) : Bool :=
  match a, b with
  | some x, some y => x != y
  | _, _ => true

/-- compare_data (done.py lines 117-123): keep the merged rows whose
Status differs from CDE_JNL_STA under the pandas != comparison. -/
def compare_data (merged_data : List MergedRec) : List MergedRec :=
  merged_data.filter (fun r => pdNe r.status r.cde_jnl_sta)

/-- A broken-down local time, as datetime.datetime.now() returns it. -/
structure DateTime where
  year : Nat
  month : Nat
  day : Nat
  hour : Nat
  minute : Nat
  second : Nat
deriving Repr, DecidableEq

/-- Zero-pad a number to two digits (strftime %m %d %H %M %S). -/
def pad2 (n : Nat) : String :=
  if n < 10 then "0" ++ toString n else toString n

/-- Zero-pad a number to four digits (strftime %Y). -/
def pad4 (n : Nat) : String :=
  if n < 10 then "000" ++ toString n
  else if n < 100 then "00" ++ toString n
  else if n < 1000 then "0" ++ toString n
  else toString n

/-- strftime("%Y%m%d_%H%M%S"). -/
def timestampYmdHMS (t : DateTime) : String :=
  pad4 t.year ++ pad2 t.month ++ pad2 t.day ++ "_" ++
  pad2 t.hour ++ pad2 t.minute ++ pad2 t.second

/-- strftime("%Y-%m-%d %H:%M:%S"). -/
def timestampSql (t : DateTime) : String :=
  pad4 t.year ++ "-" ++ pad2 t.month ++ "-" ++ pad2 t.day ++ " " ++
  pad2 t.hour ++ ":" ++ pad2 t.minute ++ ":" ++ pad2 t.second

/-- The output spreadsheet name of analyze_data (done.py lines 65-68). -/
def outputFileName (t : DateTime) : String :=
  "JAWSCasemgrRecon_" ++ timestampYmdHMS t ++ ".xlsx"

/-- Gregorian leap-year rule. -/
def isLeapYear (y : Nat) : Bool :=
  (y % 4 == 0 && y % 100 != 0) || y % 400 == 0

/-- Days in a Gregorian month. -/
def daysInMonth (y m : Nat) : Nat :=
  if m == 2 then (if isLeapYear y then 29 else 28)
  else if m == 4 || m == 6 || m == 9 || m == 11 then 30
  else 31

/-- The previous calendar day (the midnight borrow of a timedelta
subtraction). -/
def prevDay (t : DateTime) : DateTime :=
  if t.day > 1 then { t with day := t.day - 1 }
  else if t.month > 1 then
    { t with month := t.month - 1, day := daysInMonth t.year (t.month - 1) }
  else { t with year := t.year - 1, month := 12, day := 31 }

/-- datetime.datetime.now() - datetime.timedelta(minutes=30) (done.py
line 145). -/
def minusThirtyMinutes (t : DateTime) : DateTime :=
  let total := t.hour * 60 + t.minute
  if 30 ≤ total then
    { t with hour := (total - 30) / 60, minute := (total - 30) % 60 }
  else
    let total2 := total + 24 * 60 - 30
    { prevDay t with hour := total2 / 60, minute := total2 % 60 }

/-- The spreadsheet written by DataFrame.to_excel: its rows and whether
the pandas index column was included (index=False in done.py line 69). -/
structure ExcelFile where
  rows : List MergedRec
  withIndex : Bool
deriving Repr

/-- A model of the filesystem as the pipeline sees it: the set of
existing directories and the spreadsheet files written so far. -/
structure FS where
  dirs : List String
  files : List (String × ExcelFile)
deriving Repr

/-- os.path.exists: true for an existing directory or file path. -/
def pathExists (fs : FS) (p : String) : Bool :=
  fs.dirs.contains p || (fs.files.map Prod.fst).contains p

/-- Every ancestor of a slash-separated path, ending with the path
itself; os.makedirs creates each missing one. -/
def parentPaths (p : String) : List String :=
  let segs := pySplit '/' p
  ((List.range (segs.length - 1)).map
    (fun i => String.intercalate "/" (segs.take (i + 1)))) ++ [p]

/-- os.makedirs(p): create p together with any missing parent
directories; directories that already exist are left as they are. -/
def makedirs (fs : FS) (p : String) : FS :=
  { fs with dirs := fs.dirs ++ (parentPaths p).filter (fun q => !fs.dirs.contains q) }

/-- DataFrame.to_excel(path, index=...): record the written file. -/
def writeExcel (fs : FS) (path : String) (file : ExcelFile) : FS :=
  { fs with files := fs.files ++ [(path, file)] }

/-- Modelled from the spec: AppGlobal.Config, the Configuration Provider,
is not part of this repository; get(section, key) resolves a
(section, key) pair to a string value and fails when it is absent. -/
def configGet (cfg : List ((String × String) × String)) (sect k : String) :
    Option String :=
  (cfg.find? (fun e => e.1 == (sect, k))).map Prod.snd

/-- The two sheets of data/jaws_bpm_recon_raw_data_case_mgr.xlsx:
Casemgr and JAWS DB. -/
structure Workbook where
  casemgr : List CasemgrRow
  jawsdb : List JawsRow

/-- The ambient world of one run: the configuration store, the local
workbook (none when the file or a sheet is missing), the json module's
parser, the external Mapping rule table, the Named Query Registry and
the database.  All are collaborators outside this repository, modelled
by their usage contracts. -/
structure Env where
  config : List ((String × String) × String)
  workbook : Option Workbook
  loads : String → Option Json
  mapping : Option String → Option String → String
  queries : String → Option String
  db : String → String → String → Except RunError (List JawsRow)
  now : DateTime

/-- Turn an optional lookup into the exception its absence raises. -/
def ofOption {α : Type} (o : Option α) (e : RunError) : Except RunError α :=
  match o with
  | some a => Except.ok a
  | none => Except.error e

/-- The emit step of analyze_data (done.py lines 60-71): read the temp
directory from the configuration, create it (with parents) when absent,
and write the discrepancy table next to a timestamped name with no index
column.  The discrepancy table is also printed; it is returned alongside
the filesystem. -/
def emitReport (cfg : List ((String × String) × String)) (now : DateTime)
    (fs : FS) (discrepancies : List MergedRec) :
    Except RunError (FS × List MergedRec) :=
  match configGet cfg "Storage" "TempDirectory" with
  | none => Except.error RunError.missingData
  | some temp_dir =>
    let fs1 := if pathExists fs temp_dir then fs else makedirs fs temp_dir
    let output_file := temp_dir ++ "/" ++ outputFileName now
    Except.ok (writeExcel fs1 output_file { rows := discrepancies, withIndex := false },
      discrepancies)

/-- analyze_data (done.py lines 44-71): process, merge, compare, emit.
The output file is written only after every upstream step has
succeeded; a failing step aborts with its exception and nothing is
written. -/
def analyze_data (env : Env) (fs : FS) (jaws_data : List JawsRow)
    (casemgr_data : List CasemgrRow) : Except RunError (FS × List MergedRec) :=
  match process_data env.loads jaws_data casemgr_data with
  | Except.error e => Except.error e
  | Except.ok dfs =>
    let merged_data := merge_data env.mapping dfs.1 dfs.2
    let discrepancies := compare_data merged_data
    emitReport env.config env.now fs discrepancies

/-- execute_locally (done.py lines 22-42): read the two sheets of the
local workbook and run the analysis on them. -/
def execute_locally (env : Env) (fs : FS) : Except RunError (FS × List MergedRec) :=
  match env.workbook with
  | none => Except.error RunError.missingData
  | some wb => analyze_data env fs wb.jawsdb wb.casemgr

/-- execute_full (done.py lines 133-159).  Query and SqlClient are not
part of this repository; modelled from the spec: Query resolves a
logical name to query text through the Named Query Registry (NotFound
when unregistered) and SqlClient.executeProcedure runs the query text
with the parameter tuple against the configured database.  The method
reads both connection strings, resolves and executes Test_Sql with the
now-minus-30-minutes parameter, binds the fetched JAWS table, then
discards it and falls back to execute_locally; Query("CaseMgr_Sql") is
constructed but never resolved or executed. -/
def execute_full (env : Env) (fs : FS) : Except RunError (FS × List MergedRec) :=
  match configGet env.config "Databases" "JAWSDBConnectionString" with
  | none => Except.error RunError.missingData
  | some jawsDBConn =>
    match env.queries "Test_Sql" with
    | none => Except.error RunError.missingData
    | some testQueryText =>
      let updatedTime := timestampSql (minusThirtyMinutes env.now)
      match env.db jawsDBConn testQueryText updatedTime with
      | Except.error e => Except.error e
      | Except.ok _jaws_data =>
        match configGet env.config "Databases" "CaseMgrDBConnectionString" with
        | none => Except.error RunError.missingData
        | some _casemgrDBConn => execute_locally env fs

end JAWSRecon

namespace JAWSRecon

/-- A configuration store holding the three keys the pipeline reads,
used to exercise the entry points on concrete data. -/
def sampleConfig : List ((String × String) × String) :=
  [(("Databases", "JAWSDBConnectionString"), "jaws-conn"),
   (("Databases", "CaseMgrDBConnectionString"), "casemgr-conn"),
   (("Storage", "TempDirectory"), "tmp")]

/-- A well-formed Casemgr sheet row (four-segment key, JSON CASE_DATA). -/
def sampleCasemgrRow : CasemgrRow :=
  { case_data := "{}", key := "A3SYM3B3SEC12", value := some "OPEN" }

/-- A two-sheet workbook with one row per sheet. -/
def sampleWorkbook : Workbook :=
  { casemgr := [sampleCasemgrRow],
    jawsdb := [{ idn_request := "SEC12", cde_jnl_sta := some "CLOSED" }] }

/-- A concrete Mapping rule table standing in for the external Mapping
collaborator in concrete runs. -/
def sampleMapping : Option String → Option String → String := fun j c =>
  j.getD "absent" ++ "|" ++ c.getD "absent"

/-- A concrete environment: reachable database (returning an empty
table), registered Test_Sql query, local workbook present. -/
def sampleEnv : Env :=
  { config := sampleConfig
    workbook := some sampleWorkbook
    loads := fun _ => some Json.null
    mapping := sampleMapping
    queries := fun n => if n == "Test_Sql" then some "EXEC test_sql" else none
    db := fun _ _ _ => Except.ok []
    now := { year := 2026, month := 10, day := 12, hour := 0, minute := 10, second := 5 } }

/-- The sample environment with a json parser that rejects every cell,
exercising the malformed-CASE_DATA path. -/
def badJsonEnv : Env :=
  { sampleEnv with loads := fun _ => none }

/-- An empty filesystem: no directories, no files. -/
def emptyFS : FS :=
  { dirs := [], files := [] }

/-- A merged row with both status cells missing (both sides of the
comparison absent). -/
def mergedBothAbsent : MergedRec :=
  { caseData := none, status := none, symbol := none, securityId := none,
    idn_request := none, cde_jnl_sta := none, reconStatus := "absent|absent" }

/-- A processed case record used in concrete merge examples. -/
def sampleCaseRec : CaseRec :=
  { caseData := some Json.null, status := some "OPEN", symbol := some "SYM",
    securityId := some "SEC" }

/-- The merged row produced by merging the sample case record with an
empty JAWS table. -/
def sampleMergedSolo : MergedRec :=
  mergeRec sampleMapping (some sampleCaseRec, none)

/-- Char.ofNat below the surrogate range decodes back to the same
codepoint. -/
theorem toNat_ofNat_of_lt {n : Nat} (h : n < 55296) : (Char.ofNat n).toNat = n := by
  have hv : n.isValidChar := Or.inl h
  simp [Char.ofNat, hv, Char.ofNatAux, Char.toNat, UInt32.toNat, BitVec.toNat_ofNatLt]

/-- Codepoint arithmetic of pyUpperChar. -/
theorem pyUpperChar_toNat (c : Char) :
    (pyUpperChar c).toNat =
      if 97 ≤ c.toNat ∧ c.toNat ≤ 122 then c.toNat - 32 else c.toNat := by
  unfold pyUpperChar
  split
  · rename_i h
    rw [toNat_ofNat_of_lt (by omega)]
  · rfl

/-- Uppercasing does not change whether a character is whitespace. -/
theorem pyIsSpace_pyUpperChar (c : Char) : pyIsSpace (pyUpperChar c) = pyIsSpace c := by
  unfold pyIsSpace
  apply decide_eq_decide.mpr
  have h := pyUpperChar_toNat c
  by_cases hc : 97 ≤ c.toNat ∧ c.toNat ≤ 122
  · rw [if_pos hc] at h
    omega
  · rw [if_neg hc] at h
    omega

/-- pyUpperChar fixes every character outside the lowercase range. -/
theorem pyUpperChar_eq_self {c : Char} (h : ¬(97 ≤ c.toNat ∧ c.toNat ≤ 122)) :
    pyUpperChar c = c := by
  unfold pyUpperChar
  rw [if_neg h]

/-- pyUpperChar is idempotent. -/
theorem pyUpperChar_idem (c : Char) : pyUpperChar (pyUpperChar c) = pyUpperChar c := by
  by_cases hc : 97 ≤ c.toNat ∧ c.toNat ≤ 122
  · apply pyUpperChar_eq_self
    have h := pyUpperChar_toNat c
    rw [if_pos hc] at h
    omega
  · rw [pyUpperChar_eq_self hc, pyUpperChar_eq_self hc]

/-- dropWhile commutes with a map that preserves the predicate. -/
theorem dropWhile_map_eq {p : Char → Bool} {u : Char → Char}
    (hp : ∀ c, p (u c) = p c) (l : List Char) :
    List.dropWhile p (l.map u) = (List.dropWhile p l).map u := by
  induction l with
  | nil => rfl
  | cons a l ih =>
    simp only [List.map_cons, List.dropWhile_cons, hp a]
    by_cases h : p a
    · simp [h, ih]
    · simp [h]

/-- rdropWhile commutes with a map that preserves the predicate. -/
theorem rdropWhile_map_eq {p : Char → Bool} {u : Char → Char}
    (hp : ∀ c, p (u c) = p c) (l : List Char) :
    List.rdropWhile p (l.map u) = (List.rdropWhile p l).map u := by
  unfold List.rdropWhile
  rw [← List.map_reverse, dropWhile_map_eq hp, List.map_reverse]

/-- Stripping commutes with uppercasing on character lists. -/
theorem strip_map_upper (l : List Char) :
    List.rdropWhile pyIsSpace (List.dropWhile pyIsSpace (l.map pyUpperChar)) =
      (List.rdropWhile pyIsSpace (List.dropWhile pyIsSpace l)).map pyUpperChar := by
  rw [dropWhile_map_eq pyIsSpace_pyUpperChar, rdropWhile_map_eq pyIsSpace_pyUpperChar]

/-- Stripping both ends twice is stripping once, on character lists. -/
theorem strip_idem (p : Char → Bool) (l : List Char) :
    List.rdropWhile p (List.dropWhile p (List.rdropWhile p (List.dropWhile p l))) =
      List.rdropWhile p (List.dropWhile p l) := by
  set d := List.dropWhile p l with hd
  have hdd : List.dropWhile p d = d := by
    rw [hd]
    exact List.dropWhile_idempotent p l
  have hpre : List.rdropWhile p d <+: d := List.rdropWhile_prefix p d
  have hstep : List.dropWhile p (List.rdropWhile p d) = List.rdropWhile p d := by
    match hr : List.rdropWhile p d with
    | [] => simp
    | a :: r2 =>
      have ha : ¬ p a = true := by
        intro hpa
        obtain ⟨t, ht⟩ := hpre
        rw [hr] at ht
        have h2 : List.dropWhile p d = d := hdd
        rw [← ht, List.cons_append, List.dropWhile_cons_of_pos hpa] at h2
        have h3 := (List.dropWhile_suffix p (l := r2 ++ t)).length_le
        rw [h2] at h3
        simp [List.length_append] at h3
      exact List.dropWhile_cons_of_neg ha
  rw [hstep]
  exact List.rdropWhile_idempotent p d

/-- The strip-then-upper normalization is idempotent on every string. -/
theorem normalizeId_idem (s : String) : normalizeId (normalizeId s) = normalizeId s := by
  show String.mk ((List.rdropWhile pyIsSpace (List.dropWhile pyIsSpace
      ((List.rdropWhile pyIsSpace (List.dropWhile pyIsSpace s.data)).map
        pyUpperChar))).map pyUpperChar) =
    String.mk ((List.rdropWhile pyIsSpace (List.dropWhile pyIsSpace s.data)).map pyUpperChar)
  rw [strip_map_upper, strip_idem, List.map_map]
  have hcomp : pyUpperChar ∘ pyUpperChar = pyUpperChar := funext pyUpperChar_idem
  rw [hcomp]

/-- List.contains agrees with membership for lawful equality. -/
theorem contains_decide {α : Type} [BEq α] [LawfulBEq α] (l : List α) (a : α) :
    l.contains a = decide (a ∈ l) := by
  simp [List.contains]

/-- A table containing a row whose CASE_DATA does not parse makes the
whole CASE_DATA parse raise. -/
theorem parseCaseData_error {loads : String → Option Json} {cm : List CasemgrRow}
    (h : ∃ r ∈ cm, loads r.case_data = none) :
    parseCaseData loads cm = Except.error RunError.parseFailure := by
  induction cm with
  | nil => simp at h
  | cons r rs ih =>
    unfold parseCaseData
    cases hr : loads r.case_data with
    | none => rfl
    | some j =>
      obtain ⟨r2, hr2, hnone⟩ := h
      rcases List.mem_cons.mp hr2 with heq | hmem
      · rw [heq] at hnone
        rw [hnone] at hr
        cases hr
      · rw [ih ⟨r2, hmem, hnone⟩]

end JAWSRecon

namespace JAWSRecon

/-- C1: the discrepancy set produced by compare_data contains exactly the
merged rows whose Status is not identical, by exact string equality, to
CDE_JNL_STA: a row is excluded precisely when both values are present and
equal as strings, so equal present values drop out, differing present
values stay, and any row with at least one side absent stays. -/
theorem compare_data_discrepancy_membership (m : List MergedRec) (r : MergedRec) :
    r ∈ compare_data m ↔
      r ∈ m ∧ ¬ ∃ v : String, r.status = some v ∧ r.cde_jnl_sta = some v := by
  unfold compare_data
  rw [List.mem_filter]
  refine and_congr_right (fun _ => ?_)
  cases hs : r.status with
  | none => simp [pdNe, hs]
  | some x =>
    cases hc : r.cde_jnl_sta with
    | none => simp [pdNe, hs, hc]
    | some y =>
      simp [pdNe, hs, hc]
      exact not_congr eq_comm

/-- C2: merge_data is a full outer join on Security ID = IDN_REQUEST that
drops no record of either side: for Case Records with Security ID set
containing A and B and JAWS Records with IDN_REQUEST set containing B and
C, the merged result is exactly three rows — A with the JAWS side absent,
B with both sides present, and C with the Case side absent — whatever the
status-mapping rule table is. -/
theorem merge_data_outer_join_example (mapping : Option String → Option String → String) :
    merge_data mapping
      [{ caseData := none, status := some "OPEN", symbol := none, securityId := some "A" },
       { caseData := none, status := some "OPEN", symbol := none, securityId := some "B" }]
      [{ idn_request := "B", cde_jnl_sta := some "CLOSED" },
       { idn_request := "C", cde_jnl_sta := some "OPEN" }] =
      [{ caseData := none, status := some "OPEN", symbol := none, securityId := some "A",
         idn_request := none, cde_jnl_sta := none,
         reconStatus := mapping none (some "OPEN") },
       { caseData := none, status := some "OPEN", symbol := none, securityId := some "B",
         idn_request := some "B", cde_jnl_sta := some "CLOSED",
         reconStatus := mapping (some "CLOSED") (some "OPEN") },
       { caseData := none, status := none, symbol := none, securityId := none,
         idn_request := some "C", cde_jnl_sta := some "OPEN",
         reconStatus := mapping (some "OPEN") none }] := by
  rfl

/-- C3 (counterexample): the claim's example key "A3SYM3B3SEC123" does
not split into four segments — "SEC123" itself contains the separator, so
the key splits into five segments with fourth segment "SEC12" — and
processing a table holding this key aborts with the pandas column-length
error rather than producing Symbol = "SYM", Security ID = "SEC123". -/
theorem split_key_example_counterexample :
    pySplit '3' "A3SYM3B3SEC123" = ["A", "SYM", "B", "SEC12", ""] ∧
    process_data (fun _ => some Json.null) []
      [{ case_data := "{}", key := "A3SYM3B3SEC123", value := some "OPEN" }] =
      Except.error RunError.columnsMismatch := ⟨rfl, rfl⟩

/-- C3 (amended): for a Case Record key that splits on "3" into exactly
four segments, the first and third are discarded, the second becomes
Symbol, and the fourth becomes Security ID (normalized); e.g. the key
"A3SYM3B3SEC12" yields Symbol = "SYM" and Security ID = "SEC12". -/
theorem split_key_four_segments (loads : String → Option Json)
    (raw k a b c d : String) (st : Option String)
    (hload : loads raw = some Json.null)
    (hk : pySplit '3' k = [a, b, c, d]) :
    process_data loads [] [{ case_data := raw, key := k, value := st }] =
      Except.ok ([{ caseData := some Json.null, status := st, symbol := some b,
                    securityId := some (normalizeId d) }], []) := by
  simp [process_data, parseCaseData, hload, explodeRows, explodeCell, splitWidth,
    mkCaseRec, hk]

/-- C3 (witness): the amended claim at the concrete four-segment key
"A3SYM3B3SEC12". -/
theorem split_key_four_segments_witness :
    pySplit '3' "A3SYM3B3SEC12" = ["A", "SYM", "B", "SEC12"] ∧
    process_data (fun _ => some Json.null) []
      [{ case_data := "{}", key := "A3SYM3B3SEC12", value := some "OPEN" }] =
      Except.ok ([{ caseData := some Json.null, status := some "OPEN",
                    symbol := some "SYM", securityId := some (normalizeId "SEC12") }], []) :=
  ⟨rfl, split_key_four_segments (fun _ => some Json.null) "{}" "A3SYM3B3SEC12"
    "A" "SYM" "B" "SEC12" (some "OPEN") rfl rfl⟩

/-- C4 (counterexample): a key whose segment count differs from four does
abort the run: a two-segment key "A3B" alone in the table raises the
pandas column-length error, and so does a five-segment key "A3S3B3I3X" —
contradicting the claim that a segment count other than four never
raises. -/
theorem split_width_counterexample :
    (pySplit '3' "A3B" = ["A", "B"] ∧
     process_data (fun _ => some Json.null) []
       [{ case_data := "{}", key := "A3B", value := some "OPEN" }] =
       Except.error RunError.columnsMismatch) ∧
    (pySplit '3' "A3S3B3I3X" = ["A", "S", "B", "I", "X"] ∧
     process_data (fun _ => some Json.null) []
       [{ case_data := "{}", key := "A3S3B3I3X", value := some "OPEN" }] =
       Except.error RunError.columnsMismatch) := ⟨⟨rfl, rfl⟩, ⟨rfl, rfl⟩⟩

/-- C4 (amended): a key with fewer than four segments is tolerated only
when the widest key of the table has exactly four segments — the shorter
key's unfilled split columns are left absent and processing continues;
whenever the maximum segment count over the table differs from four, the
split assignment raises the pandas column-length ValueError and the run
aborts. -/
theorem split_width_tolerance (loads : String → Option Json)
    (raw1 raw2 k1 k2 a b c d x y : String) (st1 st2 : Option String)
    (h1 : loads raw1 = some Json.null) (h2 : loads raw2 = some Json.null)
    (hk1 : pySplit '3' k1 = [a, b, c, d]) (hk2 : pySplit '3' k2 = [x, y]) :
    (process_data loads [] [{ case_data := raw1, key := k1, value := st1 },
                            { case_data := raw2, key := k2, value := st2 }] =
      Except.ok ([{ caseData := some Json.null, status := st1, symbol := some b,
                    securityId := some (normalizeId d) },
                  { caseData := some Json.null, status := st2, symbol := some y,
                    securityId := none }], [])) ∧
    (∀ (jaws : List JawsRow) (cm : List CasemgrRow)
        (parsed : List (Json × String × Option String)),
      parseCaseData loads cm = Except.ok parsed →
      splitWidth ((explodeRows parsed).map (fun t => t.2.1)) ≠ 4 →
      process_data loads jaws cm = Except.error RunError.columnsMismatch) := by
  constructor
  · simp [process_data, parseCaseData, h1, h2, explodeRows, explodeCell, splitWidth,
      mkCaseRec, hk1, hk2]
  · intro jaws cm parsed hparse hw
    unfold process_data
    rw [hparse]
    exact if_neg hw

/-- C4 (witness): the amended claim at a concrete table pairing the
four-segment key "A3SYM3B3SEC12" with the two-segment key "A3B". -/
theorem split_width_tolerance_witness :
    pySplit '3' "A3SYM3B3SEC12" = ["A", "SYM", "B", "SEC12"] ∧
    pySplit '3' "A3B" = ["A", "B"] ∧
    ((process_data (fun _ => some Json.null) []
       [{ case_data := "{}", key := "A3SYM3B3SEC12", value := some "OPEN" },
        { case_data := "{}", key := "A3B", value := some "CLOSED" }] =
      Except.ok ([{ caseData := some Json.null, status := some "OPEN",
                    symbol := some "SYM", securityId := some (normalizeId "SEC12") },
                  { caseData := some Json.null, status := some "CLOSED",
                    symbol := some "B", securityId := none }], [])) ∧
     (∀ (jaws : List JawsRow) (cm : List CasemgrRow)
         (parsed : List (Json × String × Option String)),
       parseCaseData (fun _ => some Json.null) cm = Except.ok parsed →
       splitWidth ((explodeRows parsed).map (fun t => t.2.1)) ≠ 4 →
       process_data (fun _ => some Json.null) jaws cm =
         Except.error RunError.columnsMismatch)) :=
  ⟨rfl, rfl, split_width_tolerance (fun _ => some Json.null) "{}" "{}"
    "A3SYM3B3SEC12" "A3B" "A" "SYM" "B" "SEC12" "A" "B"
    (some "OPEN") (some "CLOSED") rfl rfl rfl rfl⟩

/-- C5: every row of the merged table carries Recon Status equal to the
status-mapping translation applied to that row's own (Status,
CDE_JNL_STA) pair — computed element-wise, independently per row, and
deterministically, since the rule table is a pure function. -/
theorem merge_data_recon_status_per_row (mapping : Option String → Option String → String)
    (case_df : List CaseRec) (jaws_df : List JawsRow) (r : MergedRec)
    (hr : r ∈ merge_data mapping case_df jaws_df) :
    r.reconStatus = calreconstatuscase mapping r.status r.cde_jnl_sta := by
  unfold merge_data at hr
  obtain ⟨p, hp, rfl⟩ := List.mem_map.mp hr
  rfl

/-- C5 (witness): the per-row Recon Status equation at a concrete
single-row merge. -/
theorem merge_data_recon_status_per_row_witness :
    sampleMergedSolo ∈ merge_data sampleMapping [sampleCaseRec] [] ∧
    sampleMergedSolo.reconStatus =
      calreconstatuscase sampleMapping sampleMergedSolo.status
        sampleMergedSolo.cde_jnl_sta :=
  ⟨List.mem_singleton.mpr rfl,
   merge_data_recon_status_per_row sampleMapping [sampleCaseRec] [] sampleMergedSolo
     (List.mem_singleton.mpr rfl)⟩

/-- C6: execute_full, after reading both connection strings, resolving
Test_Sql and successfully fetching the JAWS table, discards that table
unconditionally and falls back to execute_locally, so with a reachable
JAWS database and no Case-Manager query wiring its result is identical to
a local-mode run on the same environment. -/
theorem execute_full_falls_back (env : Env) (fs : FS)
    (conn q conn2 : String) (tbl : List JawsRow)
    (hconn : configGet env.config "Databases" "JAWSDBConnectionString" = some conn)
    (hq : env.queries "Test_Sql" = some q)
    (hdb : env.db conn q (timestampSql (minusThirtyMinutes env.now)) = Except.ok tbl)
    (hconn2 : configGet env.config "Databases" "CaseMgrDBConnectionString" = some conn2) :
    execute_full env fs = execute_locally env fs := by
  unfold execute_full
  rw [hconn]
  show (match env.queries "Test_Sql" with
    | none => Except.error RunError.missingData
    | some testQueryText =>
      match env.db conn testQueryText (timestampSql (minusThirtyMinutes env.now)) with
      | Except.error e => Except.error e
      | Except.ok _jaws_data =>
        match configGet env.config "Databases" "CaseMgrDBConnectionString" with
        | none => Except.error RunError.missingData
        | some _casemgrDBConn => execute_locally env fs) = execute_locally env fs
  rw [hq]
  show (match env.db conn q (timestampSql (minusThirtyMinutes env.now)) with
    | Except.error e => Except.error e
    | Except.ok _jaws_data =>
      match configGet env.config "Databases" "CaseMgrDBConnectionString" with
      | none => Except.error RunError.missingData
      | some _casemgrDBConn => execute_locally env fs) = execute_locally env fs
  rw [hdb]
  show (match configGet env.config "Databases" "CaseMgrDBConnectionString" with
    | none => Except.error RunError.missingData
    | some _casemgrDBConn => execute_locally env fs) = execute_locally env fs
  rw [hconn2]

/-- C6 (witness): the fallback equation on a concrete environment whose
database is reachable and returns an empty table. -/
theorem execute_full_falls_back_witness :
    configGet sampleEnv.config "Databases" "JAWSDBConnectionString" = some "jaws-conn" ∧
    sampleEnv.queries "Test_Sql" = some "EXEC test_sql" ∧
    sampleEnv.db "jaws-conn" "EXEC test_sql"
      (timestampSql (minusThirtyMinutes sampleEnv.now)) = Except.ok [] ∧
    configGet sampleEnv.config "Databases" "CaseMgrDBConnectionString" =
      some "casemgr-conn" ∧
    execute_full sampleEnv emptyFS = execute_locally sampleEnv emptyFS :=
  ⟨rfl, rfl, rfl, rfl,
   execute_full_falls_back sampleEnv emptyFS "jaws-conn" "EXEC test_sql"
     "casemgr-conn" [] rfl rfl rfl rfl⟩

/-- C7: the uppercase-and-trim normalization is idempotent on every
string, and process_data leaves both join-key columns in normalized form:
every processed Security ID and every processed IDN_REQUEST is a fixed
point of the normalization, so the join compares keys case-insensitively
and whitespace-insensitively by construction. -/
theorem normalization_before_join :
    (∀ s : String, normalizeId (normalizeId s) = normalizeId s) ∧
    (∀ (loads : String → Option Json) (jaws_data : List JawsRow)
        (casemgr_data : List CasemgrRow) (out : List CaseRec × List JawsRow),
      process_data loads jaws_data casemgr_data = Except.ok out →
        (∀ c ∈ out.1, Option.map normalizeId c.securityId = c.securityId) ∧
        (∀ j ∈ out.2, normalizeId j.idn_request = j.idn_request)) := by
  constructor
  · exact normalizeId_idem
  · intro loads jaws_data casemgr_data out h
    unfold process_data at h
    cases hp : parseCaseData loads casemgr_data with
    | error e => rw [hp] at h; exact absurd h (by simp)
    | ok parsed =>
      rw [hp] at h
      simp only at h
      split at h
      · cases h
        constructor
        · intro c hc
          obtain ⟨t, ht, rfl⟩ := List.mem_map.mp hc
          simp only [mkCaseRec]
          cases hv : (pySplit '3' t.2.1)[3]? with
          | none => rfl
          | some v => simp [normalizeId_idem]
        · intro j hj
          obtain ⟨j0, hj0, rfl⟩ := List.mem_map.mp hj
          show normalizeId (normalizeId j0.idn_request) = normalizeId j0.idn_request
          exact normalizeId_idem _
      · cases h

/-- C8: the emit step reads the temp directory from the configuration
(section Storage, key TempDirectory), creates it together with any
missing parent directory when absent, leaves a pre-existing directory
untouched, and writes the discrepancy set inside it as a spreadsheet
named JAWSCasemgrRecon_YYYYMMDD_HHMMSS.xlsx (run-time timestamp) with no
index column; it never touches any other file. -/
theorem emit_report_behavior (cfg : List ((String × String) × String))
    (now : DateTime) (fs : FS) (d : List MergedRec) (td : String)
    (hcfg : configGet cfg "Storage" "TempDirectory" = some td)
    (hfile : td ∉ fs.files.map Prod.fst) :
    ∃ fs1 : FS,
      emitReport cfg now fs d =
        Except.ok (writeExcel fs1 (td ++ "/" ++ outputFileName now)
          { rows := d, withIndex := false }, d) ∧
      td ∈ fs1.dirs ∧
      (td ∈ fs.dirs → fs1 = fs) ∧
      (td ∉ fs.dirs → ∀ p ∈ parentPaths td, p ∈ fs1.dirs) ∧
      fs1.files = fs.files ∧
      (writeExcel fs1 (td ++ "/" ++ outputFileName now)
          { rows := d, withIndex := false }).files =
        fs.files ++ [(td ++ "/" ++ outputFileName now, { rows := d, withIndex := false })] ∧
      outputFileName now = "JAWSCasemgrRecon_" ++ timestampYmdHMS now ++ ".xlsx" := by
  have hpeT : td ∈ fs.dirs → pathExists fs td = true := fun hd => by
    simp [pathExists, contains_decide, hd]
  have hpeF : td ∉ fs.dirs → pathExists fs td = false := fun hd => by
    simp [pathExists, contains_decide, hd, hfile]
  refine ⟨if pathExists fs td then fs else makedirs fs td, ?_, ?_, ?_, ?_, ?_, ?_, rfl⟩
  · unfold emitReport
    rw [hcfg]
  · by_cases hd : td ∈ fs.dirs
    · rw [if_pos (hpeT hd)]
      exact hd
    · rw [if_neg (by simp [hpeF hd])]
      unfold makedirs
      simp only
      apply List.mem_append_right
      rw [List.mem_filter]
      refine ⟨by simp [parentPaths], ?_⟩
      simp [contains_decide, hd]
  · intro hd
    rw [if_pos (hpeT hd)]
  · intro hd p hp
    rw [if_neg (by simp [hpeF hd])]
    unfold makedirs
    simp only
    by_cases hpd : p ∈ fs.dirs
    · exact List.mem_append_left _ hpd
    · apply List.mem_append_right
      rw [List.mem_filter]
      exact ⟨hp, by simp [contains_decide, hpd]⟩
  · by_cases hpe : pathExists fs td = true
    · rw [if_pos hpe]
    · rw [if_neg (by simp [hpe])]
      rfl
  · by_cases hpe : pathExists fs td = true
    · rw [if_pos hpe]
      rfl
    · rw [if_neg (by simp [hpe])]
      rfl

/-- C8 (witness): the emit behavior at a concrete configuration, an
empty filesystem and an empty discrepancy set. -/
theorem emit_report_behavior_witness :
    configGet sampleConfig "Storage" "TempDirectory" = some "tmp" ∧
    "tmp" ∉ emptyFS.files.map Prod.fst ∧
    (∃ fs1 : FS,
      emitReport sampleConfig sampleEnv.now emptyFS [] =
        Except.ok (writeExcel fs1 ("tmp" ++ "/" ++ outputFileName sampleEnv.now)
          { rows := [], withIndex := false }, []) ∧
      "tmp" ∈ fs1.dirs ∧
      ("tmp" ∈ emptyFS.dirs → fs1 = emptyFS) ∧
      ("tmp" ∉ emptyFS.dirs → ∀ p ∈ parentPaths "tmp", p ∈ fs1.dirs) ∧
      fs1.files = emptyFS.files ∧
      (writeExcel fs1 ("tmp" ++ "/" ++ outputFileName sampleEnv.now)
          { rows := [], withIndex := false }).files =
        emptyFS.files ++ [("tmp" ++ "/" ++ outputFileName sampleEnv.now,
          { rows := [], withIndex := false })] ∧
      outputFileName sampleEnv.now =
        "JAWSCasemgrRecon_" ++ timestampYmdHMS sampleEnv.now ++ ".xlsx") :=
  ⟨rfl, by simp [emptyFS],
   emit_report_behavior sampleConfig sampleEnv.now emptyFS [] "tmp" rfl
     (by simp [emptyFS])⟩

/-- C9: a Casemgr row whose CASE_DATA does not deserialize as JSON aborts
the local run with a parse failure; the run returns the error instead of
a new filesystem, so no output file is produced — the discrepancy
spreadsheet is written only at the end of analyze_data, after process,
merge and compare have all succeeded. -/
theorem execute_locally_aborts_on_bad_json (env : Env) (fs : FS) (wb : Workbook)
    (hwb : env.workbook = some wb)
    (hbad : ∃ r ∈ wb.casemgr, env.loads r.case_data = none) :
    execute_locally env fs = Except.error RunError.parseFailure := by
  unfold execute_locally
  rw [hwb]
  show analyze_data env fs wb.jawsdb wb.casemgr = Except.error RunError.parseFailure
  unfold analyze_data process_data
  rw [parseCaseData_error hbad]

/-- C9 (witness): the abort on a concrete environment whose json parser
rejects the single Casemgr row. -/
theorem execute_locally_aborts_on_bad_json_witness :
    badJsonEnv.workbook = some sampleWorkbook ∧
    (∃ r ∈ sampleWorkbook.casemgr, badJsonEnv.loads r.case_data = none) ∧
    execute_locally badJsonEnv emptyFS = Except.error RunError.parseFailure :=
  ⟨rfl, ⟨sampleCasemgrRow, List.mem_singleton.mpr rfl, rfl⟩,
   execute_locally_aborts_on_bad_json badJsonEnv emptyFS sampleWorkbook rfl
     ⟨sampleCasemgrRow, List.mem_singleton.mpr rfl, rfl⟩⟩

/-- C10: a merged row whose Status and CDE_JNL_STA are both missing is
included in the discrepancy set — the pandas element-wise inequality
treats a missing value as unequal to everything, another missing value
included. -/
theorem compare_data_both_absent (m : List MergedRec) (r : MergedRec)
    (hr : r ∈ m) (hs : r.status = none) (hc : r.cde_jnl_sta = none) :
    r ∈ compare_data m :=
  List.mem_filter.mpr ⟨hr, by simp [pdNe, hs, hc]⟩

/-- C10 (witness): the both-absent row of a singleton merged table is
kept by compare_data. -/
theorem compare_data_both_absent_witness :
    mergedBothAbsent ∈ [mergedBothAbsent] ∧ mergedBothAbsent.status = none ∧
    mergedBothAbsent.cde_jnl_sta = none ∧
    mergedBothAbsent ∈ compare_data [mergedBothAbsent] :=
  ⟨List.mem_singleton.mpr rfl, rfl, rfl,
   compare_data_both_absent [mergedBothAbsent] mergedBothAbsent
     (List.mem_singleton.mpr rfl) rfl rfl⟩

end JAWSRecon
